import Mathlib

/-!
Shallow embedding of the `phi` engine core of the arcade-rs repository.

The Rust source stores geometric coordinates as `f64`; the claims and all
counterexamples below only involve small dyadic values on which `f64`
arithmetic (the source only adds and compares) is exact, so `f64` is
modelled by `ℚ` with exact arithmetic.  Machine integers of the game loop
(`u32` timer ticks, `u16` fps counter) are modelled by `Nat`, with a
`% 2 ^ 16` on the one increment where wrap-around is representable.
-/

namespace ArcadeRs

/-- `Rectangle` from src/phi/data.rs: `{x, y, w, h}`, all `f64`. -/
structure Rectangle where
  x : ℚ
  y : ℚ
  w : ℚ
  h : ℚ
deriving DecidableEq, Repr

/-- `Rectangle::move_inside` from src/phi/data.rs (lines 27-43), transcribed
branch for branch.  Note that both the second x-branch and the second
y-branch of the source compare against `parent.x + parent.w` resp.
`parent.y + parent.w` (the y-branch reuses the widths), and both snap the
coordinate back to the parent's low edge. -/
def move_inside (self parent : Rectangle) : Option Rectangle :=
  if self.w > parent.w ∨ self.h > parent.h then
    none
  else
    some { w := self.w
           h := self.h
           x := if self.x < parent.x then parent.x
                else if self.x + self.w ≥ parent.x + parent.w then parent.x
                else self.x
           y := if self.y < parent.y then parent.y
                else if self.y + self.w ≥ parent.y + parent.w then parent.y
                else self.y }

/-- `Rectangle::contains` from src/phi/data.rs (lines 45-55). -/
def contains (self rect : Rectangle) : Bool :=
  let xmin := rect.x
  let xmax := xmin + rect.w
  let ymin := rect.y
  let ymax := ymin + rect.h
  decide (xmin ≥ self.x) && decide (xmin ≤ self.x + self.w) &&
  decide (xmax ≥ self.x) && decide (xmax ≤ self.x + self.w) &&
  decide (ymin ≥ self.y) && decide (ymin ≤ self.y + self.h) &&
  decide (ymax ≥ self.y) && decide (ymax ≤ self.y + self.h)

/-- Spec-side companion of `move_inside`, following the words of the spec
and of claim C2 only (clamp-to-edge on each axis independently, the y
bound using the parent's height): x is `r.x` clamped to
`[parent.x, parent.x + parent.w - r.w]`, y is `r.y` clamped to
`[parent.y, parent.y + parent.h - r.h]`.  Used solely to compare the
source function against the spec's description. -/
def move_inside_clamped (self parent : Rectangle) : Option Rectangle :=
  if self.w > parent.w ∨ self.h > parent.h then
    none
  else
    some { w := self.w
           h := self.h
           x := max parent.x (min self.x (parent.x + parent.w - self.w))
           y := max parent.y (min self.y (parent.y + parent.h - self.h)) }

/-- The native rectangle of the sdl2 crate: `(i32, i32, u32, u32)`.
Coordinates are kept as unbounded `Int`; the range checks live in
`sdlRectNew`. -/
structure SdlRect where
  x : Int
  y : Int
  w : Int
  h : Int
deriving DecidableEq, Repr

def i32min : Int := -(2 ^ 31)

def i32max : Int := 2 ^ 31 - 1

/-- Modelled from the spec: `SdlRect::new` lives in the external sdl2 crate,
not in this repository.  Per the spec, native conversion "fails if a
computed pixel coordinate overflows the native signed 32-bit range", so
the constructor succeeds iff all four corner coordinates fit an `i32`. -/
def sdlRectNew (x y w h : Int) : Option SdlRect :=
  if i32min ≤ x ∧ x ≤ i32max ∧ i32min ≤ y ∧ y ≤ i32max ∧
     i32min ≤ x + w ∧ x + w ≤ i32max ∧ i32min ≤ y + h ∧ y + h ≤ i32max then
    some { x := x, y := y, w := w, h := h }
  else
    none

/-- The two ways `Rectangle::to_sdl` can panic: the
`assert!(self.w >= 0.0 && self.h >= 0.0)` on entry, or the `.unwrap()` of
the `SdlRect::new` result when a coordinate overflows. -/
inductive ToSdlPanic where
  | assertNegativeExtent
  | unwrapOverflow
deriving DecidableEq, Repr

/-- Rust's `as i32` cast of an `f64`: truncation toward zero. -/
def ratTruncToInt (q : ℚ) : Int :=
  if 0 ≤ q then Int.floor q else Int.ceil q

/-- `Rectangle::to_sdl` from src/phi/data.rs (lines 16-22): assert
non-negative extent, then `SdlRect::new(x as i32, y as i32, w as u32,
h as u32).unwrap()`.  Panics are modelled as `Except.error`. -/
def to_sdl (self : Rectangle) : Except ToSdlPanic SdlRect :=
  if self.w ≥ 0 ∧ self.h ≥ 0 then
    match sdlRectNew (ratTruncToInt self.x) (ratTruncToInt self.y)
        (ratTruncToInt self.w) (ratTruncToInt self.h) with
    | some r => Except.ok r
    | none => Except.error ToSdlPanic.unwrapOverflow
  else
    Except.error ToSdlPanic.assertNegativeExtent

/-- Modelled from the spec: `Sprite::new` lives in src/phi/gfx.rs, which is
not included under src/.  Per the spec a sprite "wraps an opaque GPU/CPU-side
image resource"; the claims below only need the wrapper itself. -/
structure Sprite (T : Type) where
  tex : T
deriving DecidableEq, Repr

def Sprite.new {T : Type} (t : T) : Sprite T :=
  { tex := t }

/-- The `cached_fonts` HashMap of `Phi`, keyed by `(&'static str, i32)`,
modelled as an association list where `insert` prepends (later insertions
shadow earlier ones, matching HashMap overwrite). -/
def cacheLookup {F : Type} (c : List ((String × Int) × F)) (k : String × Int) :
    Option F :=
  match c with
  | [] => none
  | kf :: rest => if kf.1 = k then some kf.2 else cacheLookup rest k

/-- The state of `Phi` that `ttf_str_sprite` reads and writes: the
`cached_fonts` map.  The renderer and event pump are opaque handles whose
operations enter the embedding as the oracle functions below. -/
structure Phi (F : Type) where
  cached_fonts : List ((String × Int) × F)

/-- `Phi::ttf_str_sprite` from src/phi/mod.rs (lines 54-81).  The external
sdl2_ttf collaborators enter as pure oracles: `fontFromFile` is
`Font::from_file(path, size).ok()`, `render` is
`font.render(text, blended(color)).ok()`, `createTexture` is
`renderer.create_texture_from_surface(s).ok()`.  The result carries the
updated `Phi` state and the number of font-file load operations
(`Font::from_file` calls) the call performed.  The source's
cache-miss branch inserts the loaded font and calls itself recursively;
termination holds because the recursive call finds the key cached. -/
def ttf_str_sprite {F S T C : Type}
    (fontFromFile : String → Int → Option F)
    (render : F → String → C → Option S)
    (createTexture : S → Option T)
    (phi : Phi F) (text : String) (font_path : String) (size : Int)
    (color : C) : Option (Sprite T) × Phi F × Nat :=
  match hc : cacheLookup phi.cached_fonts (font_path, size) with
  | some font =>
      (((render font text color).bind createTexture).map Sprite.new, phi, 0)
  | none =>
      match fontFromFile font_path size with
      | none => (none, phi, 1)
      | some font =>
          let phi2 : Phi F := { cached_fonts := ((font_path, size), font) :: phi.cached_fonts }
          let r := ttf_str_sprite fontFromFile render createTexture phi2
            text font_path size color
          (r.1, r.2.1, r.2.2 + 1)
termination_by (if (cacheLookup phi.cached_fonts (font_path, size)).isSome then 0 else 1)
decreasing_by
  simp [cacheLookup, hc]

/-- `ViewAction` from src/phi/mod.rs (lines 92-96), parameterised by the
view type that `Box<View>` carries. -/
inductive ViewAction (V : Type) where
  | None
  | Quit
  | ChangeView (v : V)
deriving DecidableEq, Repr

/-- The mutable state of the `spawn` game loop in src/phi/mod.rs:
`before` and `last_second` are `u32` timer ticks, `fps` the `u16` frame
counter, `events` the pump state inside `context`, `current_view` the
boxed active view. -/
structure LoopState (V E : Type) where
  before : Nat
  last_second : Nat
  fps : Nat
  events : E
  current_view : V
deriving DecidableEq, Repr

/-- Outcome of one pass through the `loop` body of `spawn`:
`retry` is the `dt < interval` branch — `timer.delay(sleepMs)` then
`continue` with the state untouched (no pump, no render, no present);
`cont` finishes the iteration and loops, `presented` recording whether
`renderer.present()` ran, `elapsed` the seconds value the view's `render`
received; `halt` is the `break` of `ViewAction::Quit` (no present). -/
inductive LoopOutcome (V E : Type) where
  | retry (sleepMs : Nat) (s : LoopState V E)
  | cont (s : LoopState V E) (presented : Bool) (elapsed : ℚ)
  | halt (s : LoopState V E) (elapsed : ℚ)
deriving DecidableEq, Repr

/-- `let interval = 1_000 / 60;` from src/phi/mod.rs line 153 — integer
division, hence 16. -/
def interval : Nat := 1000 / 60

/-- Lines 170-177 of src/phi/mod.rs: `before = now; fps += 1;` and the
once-a-second FPS report (the `println!` side effect is not modelled; the
counter reset is).  `fps` is a `u16`, so its increment wraps at `2 ^ 16`. -/
def advanceClock {V E : Type} (now : Nat) (s : LoopState V E) : LoopState V E :=
  let s1 := { s with before := now, fps := (s.fps + 1) % 65536 }
  if now - s1.last_second > 1000 then { s1 with last_second := now, fps := 0 }
  else s1

/-- Lines 170-179 of src/phi/mod.rs: clock bookkeeping followed by
`context.events.pump(&mut context.renderer)`, with the pump abstracted as
a function on the events state. -/
def tickAdvance {V E : Type} (pump : E → E) (now : Nat) (s : LoopState V E) :
    LoopState V E :=
  { advanceClock now s with events := pump (advanceClock now s).events }

/-- The `match current_view.render(&mut context, elapsed)` of lines
181-190 of src/phi/mod.rs: `None` presents and loops, `Quit` breaks,
`ChangeView(new_view)` installs the new view and loops without
presenting. -/
def renderDispatch {V E : Type} (renderF : V → ℚ → V × ViewAction V)
    (s : LoopState V E) (elapsed : ℚ) : LoopOutcome V E :=
  match renderF s.current_view elapsed with
  | (v2, ViewAction.None) =>
      LoopOutcome.cont { s with current_view := v2 } true elapsed
  | (v2, ViewAction.Quit) =>
      LoopOutcome.halt { s with current_view := v2 } elapsed
  | (_, ViewAction.ChangeView nv) =>
      LoopOutcome.cont { s with current_view := nv } false elapsed

/-- One pass through the `loop` body of `spawn` (src/phi/mod.rs lines
158-191).  `now` is `timer.ticks()`; `dt = now - before` and
`elapsed = dt as f64 / 1_000.0` are computed first; if `dt < interval`
the loop delays `interval - dt` and restarts without touching any state;
otherwise it advances the clock, pumps events, calls the view's render
with `elapsed`, and dispatches on the returned `ViewAction`. -/
def loopStep {V E : Type} (pump : E → E)
    (renderF : V → ℚ → V × ViewAction V) (now : Nat) (s : LoopState V E) :
    LoopOutcome V E :=
  let dt := now - s.before
  let elapsed : ℚ := (dt : ℚ) / 1000
  if dt < interval then
    LoopOutcome.retry (interval - dt) s
  else
    renderDispatch renderF (tickAdvance pump now s) elapsed

/-!  Theorems about the claims.  -/

/-- C1 (code_bug evidence): the claim says that whenever `r.w ≤ p.w` and
`r.h ≤ p.h`, `move_inside r p` returns a rectangle contained in `p`.  The
source's y-branch compares `self.y + self.w` against `parent.y + parent.w`
(widths instead of heights), contradicting the function's own doc comment
("a rectangle which is contained by a parent rectangle"): at
`r = {x:0, y:1, w:1, h:2}`, `p = {x:0, y:0, w:100, h:2}` the result is
`Some r` itself, which sticks out of `p` vertically (`ymax = 3 > 2`). -/
theorem move_inside_escapes_parent :
    move_inside { x := 0, y := 1, w := 1, h := 2 } { x := 0, y := 0, w := 100, h := 2 } =
      some { x := 0, y := 1, w := 1, h := 2 } ∧
    contains { x := 0, y := 0, w := 100, h := 2 } { x := 0, y := 1, w := 1, h := 2 } = false := by
  constructor
  · norm_num [move_inside]
  · norm_num [contains]

/-- C2 (counterexample): the claim predicts clamp-to-edge behaviour — at
`r = {x:10, y:10, w:2, h:2}`, `p = {x:0, y:0, w:5, h:20}` it predicts
`x = min 10 (0 + 5 - 2) = 3` and `y = min 10 (0 + 20 - 2) = 10` — but the
source snaps an overflowing coordinate back to the parent's low edge and
measures the vertical overflow with the widths, producing `{x:0, y:0}`. -/
theorem move_inside_not_clamped :
    move_inside { x := 10, y := 10, w := 2, h := 2 } { x := 0, y := 0, w := 5, h := 20 } =
      some { x := 0, y := 0, w := 2, h := 2 } ∧
    move_inside_clamped { x := 10, y := 10, w := 2, h := 2 } { x := 0, y := 0, w := 5, h := 20 } =
      some { x := 3, y := 10, w := 2, h := 2 } ∧
    move_inside { x := 10, y := 10, w := 2, h := 2 } { x := 0, y := 0, w := 5, h := 20 } ≠
      move_inside_clamped { x := 10, y := 10, w := 2, h := 2 } { x := 0, y := 0, w := 5, h := 20 } := by
  refine ⟨by norm_num [move_inside], by norm_num [move_inside_clamped], ?_⟩
  norm_num [move_inside, move_inside_clamped, Rectangle.mk.injEq]

/-- C2 (amended): when `r.w ≤ p.w` and `r.h ≤ p.h`, `move_inside r p`
returns `Some` of a rectangle with `r`'s size whose x is `p.x` when
`r.x < p.x` or `r.x + r.w ≥ p.x + p.w` and `r.x` otherwise, and whose y is
`p.y` when `r.y < p.y` or `r.y + r.w ≥ p.y + p.w` (both comparisons using
the widths) and `r.y` otherwise. -/
theorem move_inside_characterisation (r p : Rectangle)
    (hw : r.w ≤ p.w) (hh : r.h ≤ p.h) :
    move_inside r p =
      some { w := r.w
             h := r.h
             x := if r.x < p.x then p.x
                  else if r.x + r.w ≥ p.x + p.w then p.x
                  else r.x
             y := if r.y < p.y then p.y
                  else if r.y + r.w ≥ p.y + p.w then p.y
                  else r.y } := by
  unfold move_inside
  rw [if_neg]
  push_neg
  exact ⟨hw, hh⟩

/-- Witness for `move_inside_characterisation` at
`r = {x:10, y:10, w:2, h:2}`, `p = {x:0, y:0, w:5, h:20}`. -/
theorem move_inside_characterisation_witness :
    (2 : ℚ) ≤ 5 ∧ (2 : ℚ) ≤ 20 ∧
    move_inside { x := 10, y := 10, w := 2, h := 2 } { x := 0, y := 0, w := 5, h := 20 } =
      some { x := 0, y := 0, w := 2, h := 2 } := by
  refine ⟨by norm_num, by norm_num, ?_⟩
  have h := move_inside_characterisation { x := 10, y := 10, w := 2, h := 2 }
    { x := 0, y := 0, w := 5, h := 20 } (by norm_num) (by norm_num)
  rw [h]
  norm_num

/-- C7: `move_inside` never resizes — whenever it returns `Some res`,
`res` has exactly the width and height of the input rectangle. -/
theorem move_inside_preserves_size (r p res : Rectangle)
    (h : move_inside r p = some res) : res.w = r.w ∧ res.h = r.h := by
  unfold move_inside at h
  split at h
  · exact absurd h (by simp)
  · exact ⟨(Option.some_injective _ h).symm ▸ rfl, (Option.some_injective _ h).symm ▸ rfl⟩

/-- Witness for `move_inside_preserves_size` at
`r = {x:10, y:10, w:2, h:2}`, `p = {x:0, y:0, w:5, h:20}`. -/
theorem move_inside_preserves_size_witness :
    move_inside { x := 10, y := 10, w := 2, h := 2 } { x := 0, y := 0, w := 5, h := 20 } =
      some { x := 0, y := 0, w := 2, h := 2 } ∧
    (2 : ℚ) = 2 ∧ (2 : ℚ) = 2 := by
  have hm : move_inside { x := 10, y := 10, w := 2, h := 2 }
      { x := 0, y := 0, w := 5, h := 20 } = some { x := 0, y := 0, w := 2, h := 2 } := by
    norm_num [move_inside]
  exact ⟨hm, move_inside_preserves_size _ _ _ hm⟩

/-- C8: `contains` is reflexive on non-degenerate rectangles
(`0 < w` and `0 < h`). -/
theorem contains_self (r : Rectangle) (hw : 0 < r.w) (hh : 0 < r.h) :
    contains r r = true := by
  have h1 : r.x ≤ r.x + r.w := by linarith
  have h2 : r.y ≤ r.y + r.h := by linarith
  simp [contains, h1, h2]

/-- Witness for `contains_self` at `{x:1, y:2, w:3, h:4}`. -/
theorem contains_self_witness :
    (0 : ℚ) < 3 ∧ (0 : ℚ) < 4 ∧
    contains { x := 1, y := 2, w := 3, h := 4 } { x := 1, y := 2, w := 3, h := 4 } = true :=
  ⟨by norm_num, by norm_num,
    contains_self { x := 1, y := 2, w := 3, h := 4 } (by norm_num) (by norm_num)⟩

/-- C6: `to_sdl` requires `w ≥ 0 ∧ h ≥ 0`: with a negative width or
height the assertion fires; with non-negative extent the assertion never
fires and the only remaining failure is the overflow panic of the
`.unwrap()` on `SdlRect::new`. -/
theorem to_sdl_assert_precondition (r : Rectangle) :
    (r.w < 0 ∨ r.h < 0 → to_sdl r = Except.error ToSdlPanic.assertNegativeExtent) ∧
    (0 ≤ r.w ∧ 0 ≤ r.h →
      to_sdl r ≠ Except.error ToSdlPanic.assertNegativeExtent ∧
      (∀ e, to_sdl r = Except.error e → e = ToSdlPanic.unwrapOverflow)) := by
  constructor
  · intro hneg
    unfold to_sdl
    rw [if_neg]
    push_neg
    intro hw
    rcases hneg with h | h
    · exact absurd hw (not_le.mpr h)
    · exact h
  · intro hpos
    unfold to_sdl
    rw [if_pos hpos]
    constructor
    · cases sdlRectNew (ratTruncToInt r.x) (ratTruncToInt r.y)
        (ratTruncToInt r.w) (ratTruncToInt r.h) with
      | some q => simp
      | none => simp
    · intro e
      cases sdlRectNew (ratTruncToInt r.x) (ratTruncToInt r.y)
        (ratTruncToInt r.w) (ratTruncToInt r.h) with
      | some q => simp
      | none => simp +contextual [eq_comm]

/-- Witness for `to_sdl_assert_precondition`: at `{x:0, y:0, w:2, h:3}`
the extent is non-negative and the assertion does not fire; at
`{x:0, y:0, w:-1, h:1}` it fires. -/
theorem to_sdl_assert_precondition_witness :
    ((0 : ℚ) ≤ 2 ∧ (0 : ℚ) ≤ 3) ∧
    to_sdl { x := 0, y := 0, w := 2, h := 3 } ≠
      Except.error ToSdlPanic.assertNegativeExtent ∧
    ((-1 : ℚ) < 0 ∨ (1 : ℚ) < 0) ∧
    to_sdl { x := 0, y := 0, w := -1, h := 1 } =
      Except.error ToSdlPanic.assertNegativeExtent :=
  ⟨⟨by norm_num, by norm_num⟩,
   ((to_sdl_assert_precondition { x := 0, y := 0, w := 2, h := 3 }).2
     ⟨by norm_num, by norm_num⟩).1,
   Or.inl (by norm_num),
   (to_sdl_assert_precondition { x := 0, y := 0, w := -1, h := 1 }).1
     (Or.inl (by norm_num))⟩

/-- Helper: on a state whose cache already holds the key, `ttf_str_sprite`
takes the hit branch — it renders with the cached font, leaves the state
alone and performs zero font-file loads. -/
theorem ttf_str_sprite_hit {F S T C : Type}
    (fontFromFile : String → Int → Option F)
    (render : F → String → C → Option S)
    (createTexture : S → Option T)
    (phi : Phi F) (text font_path : String) (size : Int) (color : C)
    (font : F)
    (hhit : cacheLookup phi.cached_fonts (font_path, size) = some font) :
    ttf_str_sprite fontFromFile render createTexture phi text font_path size color =
      (((render font text color).bind createTexture).map Sprite.new, phi, 0) := by
  unfold ttf_str_sprite
  split
  · rename_i f hsome
    rw [hhit] at hsome
    cases hsome
    rfl
  · rename_i hnone
    rw [hhit] at hnone
    cases hnone

/-- C9: on a cache miss where the font-file load fails, `ttf_str_sprite`
returns `None` and hands back the `Phi` state unchanged — no entry is
inserted for the failed key (the load was attempted once). -/
theorem ttf_str_sprite_load_failure_state {F S T C : Type}
    (fontFromFile : String → Int → Option F)
    (render : F → String → C → Option S)
    (createTexture : S → Option T)
    (phi : Phi F) (text font_path : String) (size : Int) (color : C)
    (hmiss : cacheLookup phi.cached_fonts (font_path, size) = none)
    (hfail : fontFromFile font_path size = none) :
    ttf_str_sprite fontFromFile render createTexture phi text font_path size color =
      (none, phi, 1) := by
  unfold ttf_str_sprite
  split
  · rename_i f hsome
    rw [hmiss] at hsome
    cases hsome
  · rw [hfail]

/-- Witness for `ttf_str_sprite_load_failure_state` with an
always-failing loader on an empty cache. -/
theorem ttf_str_sprite_load_failure_state_witness :
    ttf_str_sprite (fun _ _ => (none : Option Nat))
      (fun f (_ : String) (c : Nat) => some (f + c)) (fun s => some s)
      ({ cached_fonts := [] } : Phi Nat) "A" "font.ttf" 32 2 =
      (none, { cached_fonts := [] }, 1) :=
  ttf_str_sprite_load_failure_state _ _ _ _ _ _ _ _ rfl rfl

/-- C5: on a cache miss whose font-file load succeeds, `ttf_str_sprite`
performs exactly one load, caches the font under `(font_path, size)` and
renders with it; and every call on a state whose cache already holds that
key performs zero loads and rasterizes with the cached font — so two
identical calls perform exactly one font-file load in total (1 + 0). -/
theorem ttf_str_sprite_cache_hit (F S T C : Type)
    (fontFromFile : String → Int → Option F)
    (render : F → String → C → Option S)
    (createTexture : S → Option T)
    (phi : Phi F) (text font_path : String) (size : Int) (color : C)
    (font : F)
    (hmiss : cacheLookup phi.cached_fonts (font_path, size) = none)
    (hload : fontFromFile font_path size = some font) :
    ttf_str_sprite fontFromFile render createTexture phi text font_path size color =
      (((render font text color).bind createTexture).map Sprite.new,
       { cached_fonts := ((font_path, size), font) :: phi.cached_fonts }, 1) ∧
    (∀ (phi2 : Phi F) (text2 : String) (color2 : C),
      cacheLookup phi2.cached_fonts (font_path, size) = some font →
      ttf_str_sprite fontFromFile render createTexture phi2 text2 font_path size color2 =
        (((render font text2 color2).bind createTexture).map Sprite.new, phi2, 0)) := by
  constructor
  · have hrec := ttf_str_sprite_hit fontFromFile render createTexture
      { cached_fonts := ((font_path, size), font) :: phi.cached_fonts }
      text font_path size color font (by simp [cacheLookup])
    unfold ttf_str_sprite
    split
    · rename_i f hsome
      rw [hmiss] at hsome
      cases hsome
    · rw [hload]
      simp only [hrec]
  · intro phi2 text2 color2 hhit
    exact ttf_str_sprite_hit fontFromFile render createTexture phi2 text2
      font_path size color2 font hhit

/-- Witness for `ttf_str_sprite_cache_hit`: a loader returning font `5`
on an empty cache; the first call loads once and caches, the second call
(taken from the second conjunct at the state the first call produced)
loads zero times. -/
theorem ttf_str_sprite_cache_hit_witness :
    ttf_str_sprite (fun _ _ => some 5)
      (fun f (_ : String) (c : Nat) => some (f + c)) (fun s => some s)
      ({ cached_fonts := [] } : Phi Nat) "A" "font.ttf" 32 2 =
      (some (Sprite.new 7), { cached_fonts := [(("font.ttf", 32), 5)] }, 1) ∧
    ttf_str_sprite (fun _ _ => some 5)
      (fun f (_ : String) (c : Nat) => some (f + c)) (fun s => some s)
      ({ cached_fonts := [(("font.ttf", 32), 5)] } : Phi Nat) "A" "font.ttf" 32 2 =
      (some (Sprite.new 7), { cached_fonts := [(("font.ttf", 32), 5)] }, 0) := by
  have h := ttf_str_sprite_cache_hit Nat Nat Nat Nat (fun _ _ => some 5)
    (fun f (_ : String) (c : Nat) => some (f + c)) (fun s => some s)
    { cached_fonts := [] } "A" "font.ttf" 32 2 5 rfl rfl
  exact ⟨h.1, h.2 { cached_fonts := [(("font.ttf", 32), 5)] } "A" 2 rfl⟩

/-- C4: when `dt = now - before` is below the target interval of
`1000 / 60` ms (integer division, as in the source), the loop iteration
delays exactly `interval - dt` and restarts with the state untouched:
`before`, the fps counter, the events state and the view are unchanged,
and neither the pump, nor render, nor present runs (the outcome does not
depend on `pump` or `renderF` at all). -/
theorem loopStep_frame_cap {V E : Type} (pump : E → E)
    (renderF : V → ℚ → V × ViewAction V) (now : Nat) (s : LoopState V E)
    (h : now - s.before < interval) :
    loopStep pump renderF now s =
      LoopOutcome.retry (interval - (now - s.before)) s := by
  unfold loopStep
  rw [if_pos h]

/-- Witness for `loopStep_frame_cap` at `now = 10` on a state with
`before = 0`: dt = 10 < 16, so the loop sleeps 6 ms and keeps the state. -/
theorem loopStep_frame_cap_witness :
    10 - 0 < interval ∧
    loopStep (fun (e : Unit) => e) (fun (v : Nat) (_ : ℚ) => (v, ViewAction.None)) 10
      { before := 0, last_second := 0, fps := 0, events := (), current_view := 7 } =
      LoopOutcome.retry 6
        { before := 0, last_second := 0, fps := 0, events := (), current_view := 7 } :=
  ⟨by decide,
   loopStep_frame_cap (fun (e : Unit) => e) (fun (v : Nat) (_ : ℚ) => (v, ViewAction.None)) 10
     { before := 0, last_second := 0, fps := 0, events := (), current_view := 7 } (by decide)⟩

/-- C3: in an iteration that reaches the view's render call
(`dt ≥ interval`), the returned `ViewAction` is interpreted as:
`None` → present and continue; `Quit` → exit the loop without presenting;
`ChangeView nv` → `nv` becomes the current view and the loop continues
without presenting this tick. -/
theorem loopStep_viewaction_dispatch {V E : Type} (pump : E → E)
    (renderF : V → ℚ → V × ViewAction V) (now : Nat) (s : LoopState V E)
    (h : ¬ now - s.before < interval) :
    (∀ v2 : V,
      renderF (tickAdvance pump now s).current_view (((now - s.before : Nat) : ℚ) / 1000) =
        (v2, ViewAction.None) →
      loopStep pump renderF now s =
        LoopOutcome.cont { tickAdvance pump now s with current_view := v2 } true
          (((now - s.before : Nat) : ℚ) / 1000)) ∧
    (∀ v2 : V,
      renderF (tickAdvance pump now s).current_view (((now - s.before : Nat) : ℚ) / 1000) =
        (v2, ViewAction.Quit) →
      loopStep pump renderF now s =
        LoopOutcome.halt { tickAdvance pump now s with current_view := v2 }
          (((now - s.before : Nat) : ℚ) / 1000)) ∧
    (∀ (v2 nv : V),
      renderF (tickAdvance pump now s).current_view (((now - s.before : Nat) : ℚ) / 1000) =
        (v2, ViewAction.ChangeView nv) →
      loopStep pump renderF now s =
        LoopOutcome.cont { tickAdvance pump now s with current_view := nv } false
          (((now - s.before : Nat) : ℚ) / 1000)) := by
  refine ⟨?_, ?_, ?_⟩
  · intro v2 hr
    unfold loopStep renderDispatch
    rw [if_neg h]
    rw [hr]
  · intro v2 hr
    unfold loopStep renderDispatch
    rw [if_neg h]
    rw [hr]
  · intro v2 nv hr
    unfold loopStep renderDispatch
    rw [if_neg h]
    rw [hr]

/-- Witness for `loopStep_viewaction_dispatch` at `now = 16` on a state
with `before = 0`, applied once for each of the three view actions. -/
theorem loopStep_viewaction_dispatch_witness :
    loopStep (fun (e : Unit) => e) (fun (_ : Nat) (_ : ℚ) => (8, ViewAction.None)) 16
      { before := 0, last_second := 0, fps := 0, events := (), current_view := 7 } =
      LoopOutcome.cont
        { before := 16, last_second := 0, fps := 1, events := (), current_view := 8 } true
        (((16 : Nat) : ℚ) / 1000) ∧
    loopStep (fun (e : Unit) => e) (fun (_ : Nat) (_ : ℚ) => (8, ViewAction.Quit)) 16
      { before := 0, last_second := 0, fps := 0, events := (), current_view := 7 } =
      LoopOutcome.halt
        { before := 16, last_second := 0, fps := 1, events := (), current_view := 8 }
        (((16 : Nat) : ℚ) / 1000) ∧
    loopStep (fun (e : Unit) => e) (fun (_ : Nat) (_ : ℚ) => (8, ViewAction.ChangeView 9)) 16
      { before := 0, last_second := 0, fps := 0, events := (), current_view := 7 } =
      LoopOutcome.cont
        { before := 16, last_second := 0, fps := 1, events := (), current_view := 9 } false
        (((16 : Nat) : ℚ) / 1000) :=
  ⟨(loopStep_viewaction_dispatch (fun e => e) _ 16
      { before := 0, last_second := 0, fps := 0, events := (), current_view := 7 }
      (by decide)).1 8 rfl,
   (loopStep_viewaction_dispatch (fun e => e) _ 16
      { before := 0, last_second := 0, fps := 0, events := (), current_view := 7 }
      (by decide)).2.1 8 rfl,
   (loopStep_viewaction_dispatch (fun e => e) _ 16
      { before := 0, last_second := 0, fps := 0, events := (), current_view := 7 }
      (by decide)).2.2 8 9 rfl⟩

/-- C10: every iteration that reaches the render dispatch (`dt` not below
the interval) hands the view an elapsed-seconds value of exactly
`dt / 1000`, which is at least `16 / 1000 = 0.016` and strictly
positive. -/
theorem loopStep_elapsed_lower_bound {V E : Type} (pump : E → E)
    (renderF : V → ℚ → V × ViewAction V) (now : Nat) (s : LoopState V E)
    (h : ¬ now - s.before < interval) :
    loopStep pump renderF now s =
      renderDispatch renderF (tickAdvance pump now s)
        (((now - s.before : Nat) : ℚ) / 1000) ∧
    (16 : ℚ) / 1000 ≤ ((now - s.before : Nat) : ℚ) / 1000 ∧
    0 < ((now - s.before : Nat) : ℚ) / 1000 := by
  have h16 : (16 : Nat) ≤ now - s.before := Nat.not_lt.mp h
  have hq : (16 : ℚ) ≤ ((now - s.before : Nat) : ℚ) := by exact_mod_cast h16
  refine ⟨?_, by linarith, by linarith⟩
  unfold loopStep
  rw [if_neg h]

/-- Witness for `loopStep_elapsed_lower_bound` at `now = 20` on a state
with `before = 0`. -/
theorem loopStep_elapsed_lower_bound_witness :
    ¬ (20 - 0 < interval) ∧
    (loopStep (fun (e : Unit) => e) (fun (_ : Nat) (_ : ℚ) => (8, ViewAction.None)) 20
        { before := 0, last_second := 0, fps := 0, events := (), current_view := 7 } =
      renderDispatch (fun (_ : Nat) (_ : ℚ) => (8, ViewAction.None))
        (tickAdvance (fun (e : Unit) => e) 20
          { before := 0, last_second := 0, fps := 0, events := (), current_view := 7 })
        (((20 : Nat) : ℚ) / 1000) ∧
    (16 : ℚ) / 1000 ≤ ((20 : Nat) : ℚ) / 1000 ∧
    0 < ((20 : Nat) : ℚ) / 1000) :=
  ⟨by decide,
   loopStep_elapsed_lower_bound (fun (e : Unit) => e)
     (fun (_ : Nat) (_ : ℚ) => (8, ViewAction.None)) 20
     { before := 0, last_second := 0, fps := 0, events := (), current_view := 7 }
     (by decide)⟩

end ArcadeRs
